import Mathlib

/-!
Shallow embedding of `src/dice.py` (a tkinter dice-roll simulator).

The program is single-threaded and event-loop driven, so each roll is
modelled as a pure function from the controller state (history, the
roll button's disabled flag, the displayed face, whether the sound
asset loaded) and a stream of pseudo-random seeds to a new state plus
the ordered trace of observable events the roll emits (face renders,
sound playback, history-label updates, button enable/disable).
`random.randint(1, 6)` is modelled as consuming one seed from the
stream and mapping it into `[1, 6]`.
-/

namespace Dice

/-- The default value of the `count` parameter of `animate_roll`:
the number of intermediate animation frames per roll. -/
def ANIMATION_STEPS : Nat := 5

/-- `random.randint(1, 6)`: an arbitrary seed drawn from the random
source, mapped to an integer in `[1, 6]`. -/
def randint_1_6 (seed : Nat) : Nat := 1 + seed % 6

/-- The mutable state of `DiceSimulator` that the roll logic touches:
`history` (`self.history`), `buttonDisabled` (`self.roll_button['state']
== 'disabled'`), `face` (the image currently shown by `dice_label`, as a
face number), and `soundLoaded` (`self.roll_sound is not None`). -/
structure DiceState where
  history : List Nat
  buttonDisabled : Bool
  face : Nat
  soundLoaded : Bool
deriving Repr, DecidableEq

/-- Observable emissions to the presentation layer:
`renderFace n` is `update_dice_image(n)`, `playSound` is
`roll_sound.play()`, `historyChanged l` is `update_history` rewriting
the history label with the entries `l`, and `setTrigger b` is
`roll_button.config(state=...)` with `b = true` meaning enabled. -/
inductive Event where
  | renderFace (n : Nat)
  | playSound
  | historyChanged (l : List Nat)
  | setTrigger (enabled : Bool)
deriving Repr, DecidableEq

/-- `self.history[-5:]` — the slice of the history shown by
`update_history`. -/
def last5 (l : List Nat) : List Nat := l.drop (l.length - 5)

/-- `DiceSimulator.animate_roll(final_face, count)`: while `count > 0`
it samples a random face, renders it and re-schedules itself with
`count - 1`; at `count = 0` it renders `final_face`, appends it to the
history, runs `update_history` and re-enables the roll button.
`k` is the position in the random-seed stream. -/
def animate_roll (rand : Nat → Nat) (final_face : Nat) (count : Nat) (k : Nat)
    (s : DiceState) : DiceState × List Event :=
  match count with
  | c + 1 =>
    let random_face := randint_1_6 (rand k)
    let res := animate_roll rand final_face c (k + 1) { s with face := random_face }
    (res.1, Event.renderFace random_face :: res.2)
  | 0 =>
    let h2 := s.history ++ [final_face]
    ({ s with face := final_face, history := h2, buttonDisabled := false },
     [Event.renderFace final_face, Event.historyChanged (last5 h2),
      Event.setTrigger true])

/-- `DiceSimulator.roll_dice()`: no-op when the roll button is disabled;
otherwise disables the button, plays the sound when loaded, samples
`final_face` and runs the animation. Returns the new state, the event
trace, and the next unused seed index. -/
def roll_dice (rand : Nat → Nat) (k : Nat) (s : DiceState) :
    DiceState × List Event × Nat :=
  if s.buttonDisabled then (s, [], k)
  else
    let s1 := { s with buttonDisabled := true }
    let soundEvs := if s.soundLoaded then [Event.playSound] else []
    let final_face := randint_1_6 (rand k)
    let res := animate_roll rand final_face ANIMATION_STEPS (k + 1) s1
    (res.1, Event.setTrigger false :: (soundEvs ++ res.2), k + 1 + ANIMATION_STEPS)

/-- `n` sequential button activations, each running its roll to
completion before the next (the timer callbacks of a roll all fire
before the next user event in the single-threaded loop). -/
def runRolls (rand : Nat → Nat) : Nat → Nat → DiceState → DiceState × List Event × Nat
  | 0, k, s => (s, [], k)
  | n + 1, k, s =>
    let r1 := roll_dice rand k s
    let r2 := runRolls rand n r1.2.2 r1.1
    (r2.1, r1.2.1 ++ r2.2.1, r2.2.2)

/-- The face values carried by the `renderFace` events of a trace, in
emission order. -/
def faceUpdates : List Event → List Nat
  | [] => []
  | Event.renderFace n :: rest => n :: faceUpdates rest
  | _ :: rest => faceUpdates rest

/-- The payloads of the `historyChanged` events of a trace, in emission
order. -/
def historyPayloads : List Event → List (List Nat)
  | [] => []
  | Event.historyChanged l :: rest => l :: historyPayloads rest
  | _ :: rest => historyPayloads rest

/-- The error message printed by `load_images` on failure. -/
def imageLoadError : String :=
  "Error: Unable to load dice images. Ensure images/dice1.png to dice6.png exist."

/-- The warning printed by `__init__` when the sound asset fails to load. -/
def soundWarning : String :=
  "Warning: Could not load dice_sound.mp3. Sound disabled."

/-- The loop body of `DiceSimulator.load_images`: loads
`images/dice{i}.png` for each `i` in the list, stopping with a
`tk.TclError` (caught and turned into `SystemExit`) at the first face
whose image is missing or unreadable (`avail i = false`). -/
def load_images_from (avail : Nat → Bool) : List Nat → Except String Unit
  | [] => Except.ok ()
  | i :: rest =>
    if avail i then load_images_from avail rest else Except.error imageLoadError

/-- `DiceSimulator.load_images`: loads the six face images; any failure
aborts startup (`self.destroy(); raise SystemExit`). -/
def load_images (avail : Nat → Bool) : Except String Unit :=
  load_images_from avail [1, 2, 3, 4, 5, 6]

/-- `DiceSimulator.__init__` followed by `setup_ui`: tries to load the
sound (failure only prints a warning and leaves `roll_sound = None`),
initialises the history to `[]`, loads the face images (failure
terminates the program before `mainloop`, modelled by `Except.error`),
and builds the UI with `dice_label` showing `dice_images[1]` and the
roll button enabled. Returns the initial state and the warnings
printed. -/
def init_app (soundOk : Bool) (avail : Nat → Bool) :
    Except String (DiceState × List String) :=
  let warnings := if soundOk then [] else [soundWarning]
  match load_images avail with
  | Except.error e => Except.error e
  | Except.ok _ =>
    Except.ok ({ history := [], buttonDisabled := false, face := 1,
                 soundLoaded := soundOk }, warnings)

/-- An identity seed stream, for concrete runs. -/
def demoRand : Nat → Nat := fun n => n

/-- A seed stream under which the `j`-th completed roll (counting from
0, each roll consuming 6 seeds) commits final outcome `j + 1`. -/
def scenarioRand : Nat → Nat := fun n => n / 6

/-- The state right after a successful startup with the sound loaded. -/
def demoIdle : DiceState :=
  { history := [], buttonDisabled := false, face := 1, soundLoaded := true }

/-- A mid-animation state: the roll button is disabled. -/
def demoBusy : DiceState :=
  { history := [2], buttonDisabled := true, face := 4, soundLoaded := true }

/-- The state right after a startup in which the sound failed to load. -/
def demoNoSound : DiceState :=
  { history := [], buttonDisabled := false, face := 1, soundLoaded := false }

/-- All face images present. -/
def demoAvail : Nat → Bool := fun _ => true

/-- Face image 3 missing. -/
def demoMissing3 : Nat → Bool := fun j => decide (j ≠ 3)

/-! ### Basic lemmas about the embedding -/

theorem randint_1_6_mem (seed : Nat) : 1 ≤ randint_1_6 seed ∧ randint_1_6 seed ≤ 6 := by
  unfold randint_1_6
  have h : seed % 6 < 6 := Nat.mod_lt _ (by decide)
  omega

/-- Closed form of `animate_roll`: the final state shows `final_face`,
the history has grown by exactly `[final_face]`, the button is
re-enabled, and the trace is `count` intermediate renders followed by
the final render, the history update and the button re-enable. -/
theorem animate_roll_eq (rand : Nat → Nat) (final_face : Nat) (count k : Nat)
    (s : DiceState) :
    animate_roll rand final_face count k s =
      ({ s with face := final_face, history := s.history ++ [final_face],
                buttonDisabled := false },
       ((List.range count).map fun i => Event.renderFace (randint_1_6 (rand (k + i)))) ++
         [Event.renderFace final_face,
          Event.historyChanged (last5 (s.history ++ [final_face])),
          Event.setTrigger true]) := by
  induction count generalizing k s with
  | zero => simp [animate_roll]
  | succ c ih =>
    simp only [animate_roll, ih, List.range_succ_eq_map, List.map_cons, List.map_map]
    refine Prod.ext rfl ?_
    simp only [Nat.add_zero, List.cons_append]
    refine congrArg₂ _ rfl (congrArg₂ _ ?_ rfl)
    refine List.map_congr_left fun i _ => ?_
    simp only [Function.comp_apply]
    congr 3
    omega

/-- `roll_dice` on a busy controller is the identity: same state, no
events, no random sampling. -/
theorem roll_dice_busy (rand : Nat → Nat) (k : Nat) (s : DiceState)
    (h : s.buttonDisabled = true) :
    roll_dice rand k s = (s, [], k) := by
  simp [roll_dice, h]

/-- Closed form of `roll_dice` on an idle controller. -/
theorem roll_dice_idle (rand : Nat → Nat) (k : Nat) (s : DiceState)
    (h : s.buttonDisabled = false) :
    roll_dice rand k s =
      ({ s with face := randint_1_6 (rand k),
                history := s.history ++ [randint_1_6 (rand k)],
                buttonDisabled := false },
       Event.setTrigger false ::
         ((if s.soundLoaded then [Event.playSound] else []) ++
          (((List.range ANIMATION_STEPS).map fun i =>
              Event.renderFace (randint_1_6 (rand (k + 1 + i)))) ++
           [Event.renderFace (randint_1_6 (rand k)),
            Event.historyChanged (last5 (s.history ++ [randint_1_6 (rand k)])),
            Event.setTrigger true])),
       k + 1 + ANIMATION_STEPS) := by
  simp [roll_dice, h, animate_roll_eq]

theorem faceUpdates_append (l1 l2 : List Event) :
    faceUpdates (l1 ++ l2) = faceUpdates l1 ++ faceUpdates l2 := by
  induction l1 with
  | nil => rfl
  | cons e l ih => cases e <;> simp [faceUpdates, ih]

theorem faceUpdates_map_renderFace (g : Nat → Nat) (l : List Nat) :
    faceUpdates (l.map fun i => Event.renderFace (g i)) = l.map g := by
  induction l with
  | nil => rfl
  | cons a l ih => simp [faceUpdates, ih]

theorem historyPayloads_append (l1 l2 : List Event) :
    historyPayloads (l1 ++ l2) = historyPayloads l1 ++ historyPayloads l2 := by
  induction l1 with
  | nil => rfl
  | cons e l ih => cases e <;> simp [historyPayloads, ih]

theorem historyPayloads_map_renderFace (g : Nat → Nat) (l : List Nat) :
    historyPayloads (l.map fun i => Event.renderFace (g i)) = [] := by
  induction l with
  | nil => rfl
  | cons a l ih => simp [historyPayloads, ih]

/-- One roll preserves the range invariant on the history and emits only
faces in `[1, 6]`. -/
theorem roll_dice_range (rand : Nat → Nat) (k : Nat) (s : DiceState)
    (h : ∀ x ∈ s.history, 1 ≤ x ∧ x ≤ 6) :
    (∀ x ∈ (roll_dice rand k s).1.history, 1 ≤ x ∧ x ≤ 6) ∧
    (∀ m, Event.renderFace m ∈ (roll_dice rand k s).2.1 → 1 ≤ m ∧ m ≤ 6) := by
  by_cases hb : s.buttonDisabled = true
  · rw [roll_dice_busy rand k s hb]
    exact ⟨h, by simp⟩
  · rw [roll_dice_idle rand k s (by simpa using hb)]
    constructor
    · intro x hx
      rcases List.mem_append.1 hx with hx | hx
      · exact h x hx
      · simp only [List.mem_singleton] at hx
        subst hx; exact randint_1_6_mem _
    · intro m hm
      cases hs : s.soundLoaded <;> rw [hs] at hm <;> simp at hm <;>
        rcases hm with ⟨i, _, rfl⟩ | rfl <;> exact randint_1_6_mem _

/-- `roll_dice` never touches `self.roll_sound`. -/
theorem roll_dice_soundLoaded (rand : Nat → Nat) (k : Nat) (s : DiceState) :
    (roll_dice rand k s).1.soundLoaded = s.soundLoaded := by
  by_cases hb : s.buttonDisabled = true
  · rw [roll_dice_busy rand k s hb]
  · rw [roll_dice_idle rand k s (by simpa using hb)]

/-- With the sound asset not loaded, a roll never plays the sound. -/
theorem playSound_not_mem (rand : Nat → Nat) (k : Nat) (s : DiceState)
    (h : s.soundLoaded = false) :
    Event.playSound ∉ (roll_dice rand k s).2.1 := by
  by_cases hb : s.buttonDisabled = true
  · rw [roll_dice_busy rand k s hb]; simp
  · rw [roll_dice_idle rand k s (by simpa using hb)]
    simp [h]

/-- With the sound asset not loaded, no sequence of rolls ever plays the
sound. -/
theorem runRolls_no_sound (rand : Nat → Nat) (n k : Nat) (s : DiceState)
    (h : s.soundLoaded = false) :
    Event.playSound ∉ (runRolls rand n k s).2.1 := by
  induction n generalizing k s with
  | zero => simp [runRolls]
  | succ n ih =>
    simp only [runRolls, List.mem_append]
    push_neg
    refine ⟨playSound_not_mem rand k s h, ih _ _ ?_⟩
    rw [roll_dice_soundLoaded]; exact h

/-- From an idle controller, `n` rolls append exactly `n` entries to the
history, leaving all earlier entries in place. -/
theorem runRolls_history (rand : Nat → Nat) (n k : Nat) (s : DiceState)
    (h : s.buttonDisabled = false) :
    ∃ t : List Nat, (runRolls rand n k s).1.history = s.history ++ t ∧ t.length = n := by
  induction n generalizing k s with
  | zero => exact ⟨[], by simp [runRolls], rfl⟩
  | succ n ih =>
    simp only [runRolls]
    rw [roll_dice_idle rand k s h]
    obtain ⟨t, ht, hlen⟩ := ih (k + 1 + ANIMATION_STEPS)
      { s with face := randint_1_6 (rand k),
               history := s.history ++ [randint_1_6 (rand k)],
               buttonDisabled := false } rfl
    exact ⟨[randint_1_6 (rand k)] ++ t, by simpa using ht, by simp [hlen]⟩

/-- `load_images` succeeds exactly when every requested image is
available. -/
theorem load_images_from_ok_iff (avail : Nat → Bool) (l : List Nat) :
    load_images_from avail l = Except.ok () ↔ ∀ j ∈ l, avail j = true := by
  induction l with
  | nil => simp [load_images_from]
  | cons a l ih =>
    by_cases h : avail a = true
    · simp [load_images_from, h, ih]
    · simp [load_images_from, h]

/-- `load_images` either succeeds or fails with the fixed error
message. -/
theorem load_images_from_cases (avail : Nat → Bool) (l : List Nat) :
    load_images_from avail l = Except.ok () ∨
    load_images_from avail l = Except.error imageLoadError := by
  induction l with
  | nil => left; rfl
  | cons a l ih =>
    by_cases h : avail a = true <;> simp [load_images_from, h, ih]

/-- A missing face image among 1–6 makes `load_images` fail. -/
theorem load_images_error_of_missing (avail : Nat → Bool) (i : Nat)
    (h1 : 1 ≤ i) (h2 : i ≤ 6) (h3 : avail i = false) :
    load_images avail = Except.error imageLoadError := by
  rcases load_images_from_cases avail [1, 2, 3, 4, 5, 6] with hok | herr
  · exfalso
    have hall := (load_images_from_ok_iff avail [1, 2, 3, 4, 5, 6]).1 hok
    have hi : i ∈ [1, 2, 3, 4, 5, 6] := by interval_cases i <;> simp
    rw [hall i hi] at h3
    exact Bool.noConfusion h3
  · exact herr

/-! ### Claim theorems -/

/-- C1: for every completed roll the entry appended to the history is
exactly the `finalOutcome` sampled at the start of the roll (seed
index `k`, drawn before any intermediate animation seed `k + 1 + i`);
a busy request leaves the history unchanged, so each completed roll
appends exactly one element; and from an idle state `n` completed
rolls grow the history by exactly `n` appended entries without
touching earlier ones (append-only). -/
theorem C1_history_commit (rand : Nat → Nat) (k n : Nat) (s : DiceState) :
    ((roll_dice rand k s).1.history =
      if s.buttonDisabled then s.history
      else s.history ++ [randint_1_6 (rand k)]) ∧
    (s.buttonDisabled = false →
      ∃ t : List Nat,
        (runRolls rand n k s).1.history = s.history ++ t ∧ t.length = n) := by
  constructor
  · by_cases hb : s.buttonDisabled = true
    · rw [roll_dice_busy rand k s hb, hb]; simp
    · have hb' : s.buttonDisabled = false := by simpa using hb
      rw [roll_dice_idle rand k s hb', hb']; simp
  · intro h
    exact runRolls_history rand n k s h

/-- C1 witness: a concrete completed roll commits its sampled outcome
and three sequential rolls append exactly three entries. -/
theorem C1_history_commit_witness :
    ((roll_dice demoRand 0 demoIdle).1.history =
      demoIdle.history ++ [randint_1_6 (demoRand 0)]) ∧
    ∃ t : List Nat,
      (runRolls demoRand 3 0 demoIdle).1.history = demoIdle.history ++ t ∧
      t.length = 3 := by
  have h := C1_history_commit demoRand 0 3 demoIdle
  exact ⟨by simpa [demoIdle] using h.1, h.2 rfl⟩

/-- C2: a roll that runs to completion emits exactly
`ANIMATION_STEPS = 5` intermediate face updates (the sampled animation
faces, in schedule order) followed by one final face update showing
the `finalOutcome` sampled at roll start. -/
theorem C2_animation_steps (rand : Nat → Nat) (k : Nat) (s : DiceState)
    (h : s.buttonDisabled = false) :
    faceUpdates (roll_dice rand k s).2.1 =
      ((List.range ANIMATION_STEPS).map fun i => randint_1_6 (rand (k + 1 + i))) ++
        [randint_1_6 (rand k)] ∧
    ((List.range ANIMATION_STEPS).map fun i =>
        randint_1_6 (rand (k + 1 + i))).length = ANIMATION_STEPS ∧
    ANIMATION_STEPS = 5 := by
  refine ⟨?_, by simp, rfl⟩
  rw [roll_dice_idle rand k s h]
  cases hs : s.soundLoaded <;>
    simp [faceUpdates, faceUpdates_append, faceUpdates_map_renderFace,
      ANIMATION_STEPS, List.range_succ]

/-- C2 witness at a concrete seed stream and the startup state. -/
theorem C2_animation_steps_witness :
    faceUpdates (roll_dice demoRand 0 demoIdle).2.1 =
      ((List.range ANIMATION_STEPS).map fun i => randint_1_6 (demoRand (0 + 1 + i))) ++
        [randint_1_6 (demoRand 0)] ∧
    ((List.range ANIMATION_STEPS).map fun i =>
        randint_1_6 (demoRand (0 + 1 + i))).length = ANIMATION_STEPS ∧
    ANIMATION_STEPS = 5 :=
  C2_animation_steps demoRand 0 demoIdle rfl

/-- C3: `roll_dice` called while the button is disabled (a roll is
animating) is a no-op: identical state (no history change), no events
(no new animation), and the seed stream position is untouched (no
outcome sampled). -/
theorem C3_busy_noop (rand : Nat → Nat) (k : Nat) (s : DiceState)
    (h : s.buttonDisabled = true) :
    roll_dice rand k s = (s, [], k) :=
  roll_dice_busy rand k s h

/-- C3 witness on a concrete mid-animation state. -/
theorem C3_busy_noop_witness :
    roll_dice demoRand 7 demoBusy = (demoBusy, [], 7) :=
  C3_busy_noop demoRand 7 demoBusy rfl

/-- C4: the history payload shown after a completed roll is the last-5
slice of the committed history (so at most 5 entries, most-recent-last,
a suffix of the full history — relative order preserved); and the
concrete 6-roll scenario with outcomes `[1,2,3,4,5,6]` exposes exactly
`[2,3,4,5,6]` after the sixth roll. -/
theorem C4_history_display (rand : Nat → Nat) (k : Nat) (s : DiceState)
    (h : s.buttonDisabled = false) :
    historyPayloads (roll_dice rand k s).2.1 =
      [last5 (s.history ++ [randint_1_6 (rand k)])] ∧
    (last5 (s.history ++ [randint_1_6 (rand k)])).length ≤ 5 ∧
    last5 (s.history ++ [randint_1_6 (rand k)]) <:+
      s.history ++ [randint_1_6 (rand k)] ∧
    historyPayloads (runRolls scenarioRand 6 0 demoIdle).2.1 =
      [[1], [1, 2], [1, 2, 3], [1, 2, 3, 4], [1, 2, 3, 4, 5], [2, 3, 4, 5, 6]] ∧
    (runRolls scenarioRand 6 0 demoIdle).1.history = [1, 2, 3, 4, 5, 6] := by
  refine ⟨?_, ?_, List.drop_suffix _ _, by decide, by decide⟩
  · rw [roll_dice_idle rand k s h]
    cases hs : s.soundLoaded <;>
      simp [historyPayloads, historyPayloads_append, historyPayloads_map_renderFace]
  · simp only [last5, List.length_drop]
    omega

/-- C4 witness at a concrete seed stream and the startup state. -/
theorem C4_history_display_witness :
    historyPayloads (roll_dice demoRand 0 demoIdle).2.1 =
      [last5 (demoIdle.history ++ [randint_1_6 (demoRand 0)])] ∧
    (last5 (demoIdle.history ++ [randint_1_6 (demoRand 0)])).length ≤ 5 ∧
    last5 (demoIdle.history ++ [randint_1_6 (demoRand 0)]) <:+
      demoIdle.history ++ [randint_1_6 (demoRand 0)] ∧
    historyPayloads (runRolls scenarioRand 6 0 demoIdle).2.1 =
      [[1], [1, 2], [1, 2, 3], [1, 2, 3, 4], [1, 2, 3, 4, 5], [2, 3, 4, 5, 6]] ∧
    (runRolls scenarioRand 6 0 demoIdle).1.history = [1, 2, 3, 4, 5, 6] :=
  C4_history_display demoRand 0 demoIdle rfl

/-- C5: the trace of a completed roll is, in this strict order: the
trigger disable, an optional sound playback, the `ANIMATION_STEPS`
intermediate face updates in schedule order, the final face update,
the history-changed emission (carrying the history with the new entry
already appended), and only then the trigger re-enable (busy flag
cleared); the resulting state has the entry committed and the busy
flag clear. -/
theorem C5_event_order (rand : Nat → Nat) (k : Nat) (s : DiceState)
    (h : s.buttonDisabled = false) :
    (roll_dice rand k s).2.1 =
      Event.setTrigger false ::
        ((if s.soundLoaded then [Event.playSound] else []) ++
         (((List.range ANIMATION_STEPS).map fun i =>
             Event.renderFace (randint_1_6 (rand (k + 1 + i)))) ++
          [Event.renderFace (randint_1_6 (rand k)),
           Event.historyChanged (last5 (s.history ++ [randint_1_6 (rand k)])),
           Event.setTrigger true])) ∧
    (roll_dice rand k s).1.history = s.history ++ [randint_1_6 (rand k)] ∧
    (roll_dice rand k s).1.buttonDisabled = false := by
  rw [roll_dice_idle rand k s h]
  exact ⟨rfl, rfl, rfl⟩

/-- C5 witness at a concrete seed stream and the startup state. -/
theorem C5_event_order_witness :
    (roll_dice demoRand 0 demoIdle).2.1 =
      Event.setTrigger false ::
        ((if demoIdle.soundLoaded then [Event.playSound] else []) ++
         (((List.range ANIMATION_STEPS).map fun i =>
             Event.renderFace (randint_1_6 (demoRand (0 + 1 + i)))) ++
          [Event.renderFace (randint_1_6 (demoRand 0)),
           Event.historyChanged (last5 (demoIdle.history ++ [randint_1_6 (demoRand 0)])),
           Event.setTrigger true])) ∧
    (roll_dice demoRand 0 demoIdle).1.history =
      demoIdle.history ++ [randint_1_6 (demoRand 0)] ∧
    (roll_dice demoRand 0 demoIdle).1.buttonDisabled = false :=
  C5_event_order demoRand 0 demoIdle rfl

/-- C6: starting from any state whose history entries lie in `[1, 6]`
(in particular the empty startup history), after any number of rolls
every history entry and every face ever emitted — sampled intermediate
faces and committed final outcomes alike — is an integer in `[1, 6]`. -/
theorem C6_outcomes_range (rand : Nat → Nat) (n k : Nat) (s : DiceState)
    (h : ∀ x ∈ s.history, 1 ≤ x ∧ x ≤ 6) :
    (∀ x ∈ (runRolls rand n k s).1.history, 1 ≤ x ∧ x ≤ 6) ∧
    (∀ m, Event.renderFace m ∈ (runRolls rand n k s).2.1 → 1 ≤ m ∧ m ≤ 6) := by
  induction n generalizing k s with
  | zero => exact ⟨h, by simp [runRolls]⟩
  | succ n ih =>
    obtain ⟨h1, h2⟩ := roll_dice_range rand k s h
    obtain ⟨ih1, ih2⟩ := ih (roll_dice rand k s).2.2 (roll_dice rand k s).1 h1
    refine ⟨ih1, ?_⟩
    intro m hm
    simp only [runRolls, List.mem_append] at hm
    rcases hm with hm | hm
    · exact h2 m hm
    · exact ih2 m hm

/-- C6 witness: two rolls from the startup state. -/
theorem C6_outcomes_range_witness :
    (∀ x ∈ (runRolls demoRand 2 0 demoIdle).1.history, 1 ≤ x ∧ x ≤ 6) ∧
    (∀ m, Event.renderFace m ∈ (runRolls demoRand 2 0 demoIdle).2.1 →
      1 ≤ m ∧ m ≤ 6) :=
  C6_outcomes_range demoRand 2 0 demoIdle (by simp [demoIdle])

/-- C7: when the sound asset fails to load, startup still succeeds,
reports the failure as a warning, and leaves the sound disabled; no
sequence of rolls ever plays the sound afterwards (it is skipped,
never retried), and every roll still completes normally: the same face
updates and history payloads as with sound, and the outcome is still
committed to the history. -/
theorem C7_sound_degraded (avail : Nat → Bool) (rand : Nat → Nat) (n k : Nat)
    (s : DiceState) (hav : load_images avail = Except.ok ())
    (hsnd : s.soundLoaded = false) :
    init_app false avail =
      Except.ok ({ history := [], buttonDisabled := false, face := 1,
                   soundLoaded := false }, [soundWarning]) ∧
    Event.playSound ∉ (runRolls rand n k s).2.1 ∧
    (s.buttonDisabled = false →
      faceUpdates (roll_dice rand k s).2.1 =
        faceUpdates (roll_dice rand k { s with soundLoaded := true }).2.1 ∧
      historyPayloads (roll_dice rand k s).2.1 =
        historyPayloads (roll_dice rand k { s with soundLoaded := true }).2.1 ∧
      (roll_dice rand k s).1.history = s.history ++ [randint_1_6 (rand k)]) := by
  refine ⟨by simp [init_app, hav], runRolls_no_sound rand n k s hsnd, ?_⟩
  intro hb
  rw [roll_dice_idle rand k s hb, roll_dice_idle rand k _ (by simp [hb])]
  refine ⟨?_, ?_, rfl⟩
  · simp [faceUpdates, faceUpdates_append, hsnd]
  · simp [historyPayloads, historyPayloads_append, hsnd]

/-- C7 witness: all images available, sound missing, two rolls. -/
theorem C7_sound_degraded_witness :
    init_app false demoAvail =
      Except.ok ({ history := [], buttonDisabled := false, face := 1,
                   soundLoaded := false }, [soundWarning]) ∧
    Event.playSound ∉ (runRolls demoRand 2 0 demoNoSound).2.1 ∧
    (demoNoSound.buttonDisabled = false →
      faceUpdates (roll_dice demoRand 0 demoNoSound).2.1 =
        faceUpdates (roll_dice demoRand 0
          { demoNoSound with soundLoaded := true }).2.1 ∧
      historyPayloads (roll_dice demoRand 0 demoNoSound).2.1 =
        historyPayloads (roll_dice demoRand 0
          { demoNoSound with soundLoaded := true }).2.1 ∧
      (roll_dice demoRand 0 demoNoSound).1.history =
        demoNoSound.history ++ [randint_1_6 (demoRand 0)]) :=
  C7_sound_degraded demoAvail demoRand 2 0 demoNoSound rfl rfl

/-- C8: if any of the six face images is unavailable at startup,
`load_images` fails and startup terminates with the image-load error
before the event loop — no state and no roll can ever be produced. -/
theorem C8_missing_images_fatal (soundOk : Bool) (avail : Nat → Bool) (i : Nat)
    (h1 : 1 ≤ i) (h2 : i ≤ 6) (h3 : avail i = false) :
    init_app soundOk avail = Except.error imageLoadError := by
  have h := load_images_error_of_missing avail i h1 h2 h3
  simp [init_app, h]

/-- C8 witness: face image 3 missing. -/
theorem C8_missing_images_fatal_witness :
    init_app true demoMissing3 = Except.error imageLoadError :=
  C8_missing_images_fatal true demoMissing3 3 (by decide) (by decide) (by decide)

/-- C9: the re-entrancy guard reads exactly the button's disabled
state: with the button disabled `roll_dice` is the identity, and from
an idle state the trace starts by disabling the trigger, ends by
re-enabling it, with no other trigger-state change in between (the
flag is set once at roll start and cleared exactly once at
completion), and the final state has the flag clear. -/
theorem C9_guard_is_button (rand : Nat → Nat) (k : Nat) (s : DiceState) :
    (s.buttonDisabled = true → roll_dice rand k s = (s, [], k)) ∧
    (s.buttonDisabled = false →
      ∃ pre : List Event,
        (roll_dice rand k s).2.1 =
          Event.setTrigger false :: (pre ++ [Event.setTrigger true]) ∧
        (∀ b, Event.setTrigger b ∉ pre) ∧
        (roll_dice rand k s).1.buttonDisabled = false) := by
  refine ⟨roll_dice_busy rand k s, ?_⟩
  intro h
  rw [roll_dice_idle rand k s h]
  refine ⟨(if s.soundLoaded then [Event.playSound] else []) ++
    (((List.range ANIMATION_STEPS).map fun i =>
        Event.renderFace (randint_1_6 (rand (k + 1 + i)))) ++
     [Event.renderFace (randint_1_6 (rand k)),
      Event.historyChanged (last5 (s.history ++ [randint_1_6 (rand k)]))]),
    ?_, ?_, rfl⟩
  · simp
  · intro b
    cases hs : s.soundLoaded <;> simp

/-- C9 witness at a concrete busy state and a concrete idle state. -/
theorem C9_guard_is_button_witness :
    roll_dice demoRand 7 demoBusy = (demoBusy, [], 7) ∧
    ∃ pre : List Event,
      (roll_dice demoRand 0 demoIdle).2.1 =
        Event.setTrigger false :: (pre ++ [Event.setTrigger true]) ∧
      (∀ b, Event.setTrigger b ∉ pre) ∧
      (roll_dice demoRand 0 demoIdle).1.buttonDisabled = false :=
  ⟨(C9_guard_is_button demoRand 7 demoBusy).1 rfl,
   (C9_guard_is_button demoRand 0 demoIdle).2 rfl⟩

/-- C10: whenever startup succeeds (all face images load), the initial
state shows face 1 on the dice label, the history is empty, and the
roll button is enabled. -/
theorem C10_initial_display (soundOk : Bool) (avail : Nat → Bool)
    (h : load_images avail = Except.ok ()) :
    ∃ st ws, init_app soundOk avail = Except.ok (st, ws) ∧
      st.face = 1 ∧ st.history = [] ∧ st.buttonDisabled = false := by
  refine ⟨{ history := [], buttonDisabled := false, face := 1,
            soundLoaded := soundOk },
    if soundOk then [] else [soundWarning], ?_, rfl, rfl, rfl⟩
  simp [init_app, h]

/-- C10 witness: all images available, sound loaded. -/
theorem C10_initial_display_witness :
    ∃ st ws, init_app true demoAvail = Except.ok (st, ws) ∧
      st.face = 1 ∧ st.history = [] ∧ st.buttonDisabled = false :=
  C10_initial_display true demoAvail rfl

end Dice
